import Mathlib

/-!
A Lean model of the animation trigger and transition matching engine
(Angular animations DSL): named states with style snapshots, ordered
transition rules with expression or predicate matchers, first-match-wins
transition selection, variable-local substitution, timeline building and
compile-time error aggregation.

The repository ships only the engine's test suite
(`packages/animations/browser/test/dsl/animation_trigger_spec.ts`); the
engine itself (`animation_trigger.ts` and its expression parser) is not in
the visible sources, so the definitions below are modelled from the
specification's contracts and verified against the behaviour the test
suite pins down.
-/

set_option autoImplicit false

namespace AnimationDsl

/-- A style value: either a string (possibly a `$`-prefixed variable local
token before substitution) or a number. -/
inductive StyleVal where
  | str (s : String)
  | num (n : Int)
deriving DecidableEq, Repr

/-- A style snapshot: an ordered association of property names to values. -/
abbrev StyleMap := List (String × StyleVal)

/-- A state argument passed to `matchTransition`: the test suite passes
strings, numbers and booleans, so the model keeps all three. -/
inductive StateVal where
  | str (s : String)
  | num (n : Int)
  | bool (b : Bool)
deriving DecidableEq, Repr

/-- One side of a transition expression clause: the wildcard `*` or a
literal state name. -/
inductive Side where
  | wild
  | name (s : String)
deriving DecidableEq, Repr

/-- A parsed transition-expression clause: `side => side` (covering the
exact and wildcard forms; aliases desugar to this form) or
`side <=> side`. -/
inductive Clause where
  | arrow (lhs rhs : Side)
  | bidir (lhs rhs : Side)
deriving DecidableEq, Repr

/-- A normalized rule matcher: a compound list of parsed clauses (matching
when ANY clause matches), or an opaque predicate function. -/
inductive MatcherSpec where
  | expr (clauses : List Clause)
  | pred (f : StateVal → StateVal → Bool)

/-- One animation step of a rule's step sequence: a `style(...)` call or an
`animate(duration[, style])` call. -/
inductive AnimStep where
  | style (styles : StyleMap)
  | animate (duration : Nat) (styles : Option StyleMap)
deriving DecidableEq, Repr

/-- The raw matcher of a transition definition, before compilation: an
expression source string or a predicate function. -/
inductive MatcherDef where
  | exprStr (s : String)
  | pred (f : StateVal → StateVal → Bool)

/-- One entry of a raw trigger definition list: a `state(namesCsv, style)`
declaration or a `transition(matcher, steps, locals)` declaration. -/
inductive TriggerDef where
  | state (namesCsv : String) (styles : StyleMap)
  | transition (m : MatcherDef) (steps : List AnimStep) (locals : List (String × StyleVal))

/-- A compiled transition rule: matcher, animation steps and the default
locals map. -/
structure TransitionRule where
  matcher : MatcherSpec
  steps : List AnimStep
  locals : List (String × StyleVal)

/-- A compiled animation trigger: its name, the state registry and the
ordered transition rule set. -/
structure AnimationTrigger where
  name : String
  states : List (String × StyleMap)
  rules : List TransitionRule

/-! ### Character-level string helpers (structural, kernel-evaluable) -/

/-- Drops leading whitespace characters from a character list. -/
def dropLeading : List Char → List Char
  | [] => []
  | c :: rest => if c.isWhitespace then dropLeading rest else c :: rest

/-- Trims whitespace from both ends of a character list. -/
def trimChars (cs : List Char) : List Char :=
  ((dropLeading (dropLeading cs).reverse)).reverse

/-- Splits a character list on the comma character. -/
def splitComma : List Char → List (List Char)
  | [] => [[]]
  | c :: rest =>
    match splitComma rest with
    | [] => if c = ',' then [[], []] else [[c]]
    | h :: t => if c = ',' then [] :: h :: t else (c :: h) :: t

/-- `leadsWith p l` holds when `p` is an initial segment of `l`. -/
def leadsWith : List Char → List Char → Bool
  | [], _ => true
  | _ :: _, [] => false
  | p :: ps, c :: cs => p == c && leadsWith ps cs

/-- Splits a character list at the first occurrence of the separator
sequence `sep`, returning the parts before and after it. -/
def splitFirst (sep : List Char) : List Char → Option (List Char × List Char)
  | [] => none
  | c :: cs =>
    if leadsWith sep (c :: cs) then some ([], (c :: cs).drop sep.length)
    else
      match splitFirst sep cs with
      | some (l, r) => some (c :: l, r)
      | none => none

/-- `containsSeq hay needle` holds when `needle` occurs contiguously in
`hay`. -/
def containsSeq : List Char → List Char → Bool
  | [], needle => leadsWith needle []
  | c :: t, needle => leadsWith needle (c :: t) || containsSeq t needle

/-! ### Expression parser -/

/-- Characters allowed in a state identifier on one side of an arrow. -/
def isIdentChar (c : Char) : Bool :=
  c.isAlphanum || c == '_' || c == '-'

/-- A valid state identifier: nonempty, made of identifier characters. -/
def isIdent (cs : List Char) : Bool :=
  !cs.isEmpty && cs.all isIdentChar

/-- Modelled from the spec: the per-defect error message for an expression
string that does not match the transition grammar (missing from the
sources; the test suite pins the exact wording). -/
def unsupportedExpr (cs : List Char) : String :=
  "- The provided transition expression \"" ++ String.mk cs ++ "\" is not supported"

/-- Modelled from the spec: the per-defect error message for an alias token
other than `:enter`/`:leave` (missing from the sources; the test suite pins
the exact wording). -/
def unsupportedAlias (cs : List Char) : String :=
  "- The transition alias value \"" ++ String.mk cs ++ "\" is not supported"

/-- Parses one side of a clause: `*` or an identifier. -/
def parseSide (cs : List Char) : Option Side :=
  let t := trimChars cs
  if t = ['*'] then some .wild
  else if isIdent t then some (.name (String.mk t)) else none

/-- Modelled from the spec: parsing one transition clause, following the
grammar `clause := side '=>' side | side '<=>' side | alias` with the
reserved aliases `:enter` (desugaring to `void => *`) and `:leave`
(desugaring to `* => void`); the parser itself is missing from the
sources. -/
def parseClause (raw : List Char) : Except String Clause :=
  let t := trimChars raw
  if t = (":enter".data) then .ok (.arrow (.name "void") .wild)
  else if t = (":leave".data) then .ok (.arrow .wild (.name "void"))
  else
    match t with
    | ':' :: _ => .error (unsupportedAlias t)
    | _ =>
      match splitFirst ("<=>".data) t with
      | some (l, r) =>
        match parseSide l, parseSide r with
        | some sl, some sr => .ok (.bidir sl sr)
        | _, _ => .error (unsupportedExpr t)
      | none =>
        match splitFirst ("=>".data) t with
        | some (l, r) =>
          match parseSide l, parseSide r with
          | some sl, some sr => .ok (.arrow sl sr)
          | _, _ => .error (unsupportedExpr t)
        | none => .error (unsupportedExpr t)

/-- Modelled from the spec: parsing a full (possibly comma-separated)
transition expression into its clause list, collecting every per-clause
defect rather than stopping at the first. -/
def parseTransitionExpr (s : String) : Except (List String) (List Clause) :=
  let results := (splitComma s.data).map parseClause
  let errs := results.filterMap (fun r => match r with | .error e => some e | .ok _ => none)
  if errs.isEmpty then
    .ok (results.filterMap (fun r => match r with | .ok c => some c | .error _ => none))
  else .error errs

/-! ### Trigger compilation -/

/-- Inserts a state binding into the registry; last write wins for a
repeated name (the binding is updated in place), otherwise the entry is
appended preserving declaration order. -/
def setState : List (String × StyleMap) → String → StyleMap → List (String × StyleMap)
  | [], k, v => [(k, v)]
  | (k2, v2) :: rest, k, v =>
    if k2 = k then (k, v) :: rest else (k2, v2) :: setState rest k v

/-- The trimmed state names declared by a comma-separated name list. -/
def stateNames (namesCsv : String) : List String :=
  (splitComma namesCsv.data).map (fun cs => String.mk (trimChars cs))

/-- Modelled from the spec: `defineState` splits the comma-separated name
list, trims each name and binds every resulting name to the identical
style snapshot (the registry implementation is missing from the sources). -/
def addStates (m : List (String × StyleMap)) (namesCsv : String) (styles : StyleMap) :
    List (String × StyleMap) :=
  (stateNames namesCsv).foldl (fun acc n => setState acc n styles) m

/-- One compilation step over a raw definition entry: extends the state
registry, appends a compiled rule, or appends the defects found. -/
def compileStep (acc : List (String × StyleMap) × List TransitionRule × List String)
    (d : TriggerDef) : List (String × StyleMap) × List TransitionRule × List String :=
  match d with
  | .state csv st => (addStates acc.1 csv st, acc.2.1, acc.2.2)
  | .transition (.exprStr s) steps locals =>
    match parseTransitionExpr s with
    | .ok cs => (acc.1, acc.2.1 ++ [⟨.expr cs, steps, locals⟩], acc.2.2)
    | .error es => (acc.1, acc.2.1, acc.2.2 ++ es)
  | .transition (.pred f) steps locals =>
    (acc.1, acc.2.1 ++ [⟨.pred f, steps, locals⟩], acc.2.2)

/-- Compiles a raw definition list into the state registry, the ordered
rule set and the list of every structural defect found. -/
def compileDefs (defs : List TriggerDef) :
    List (String × StyleMap) × List TransitionRule × List String :=
  defs.foldl compileStep ([], [], [])

/-- All structural defects of a raw trigger definition list. -/
def collectErrors (defs : List TriggerDef) : List String :=
  (compileDefs defs).2.2

/-- Renders the collected defects, one bullet line per defect. -/
def renderErrors : List String → String
  | [] => ""
  | e :: rest => "\n" ++ e ++ renderErrors rest

/-- Modelled from the spec: the grouped error message — a summary line
naming the trigger followed by one bullet per defect (the aggregator is
missing from the sources; the test suite pins the summary wording). -/
def triggerErrorMessage (name : String) (errs : List String) : String :=
  ("Animation parsing for the " ++ name ++ " trigger have failed") ++
    (":" ++ renderErrors errs)

/-- Modelled from the spec: compiling a named trigger definition —
aggregates every structural defect into one grouped failure, otherwise
yields the compiled trigger (the `buildTrigger`/`makeTrigger` entry point
is missing from the sources). -/
def makeTrigger (name : String) (defs : List TriggerDef) :
    Except String AnimationTrigger :=
  let acc := compileDefs defs
  if acc.2.2 = [] then .ok ⟨name, acc.1, acc.2.1⟩
  else .error (triggerErrorMessage name acc.2.2)

/-! ### Transition matching -/

/-- Whether one side of a clause accepts a state value: `*` accepts
anything, a literal name accepts exactly that string state. -/
def sideMatches : Side → StateVal → Bool
  | .wild, _ => true
  | .name n, .str s => n == s
  | .name _, _ => false

/-- Whether a parsed clause accepts a `(fromState, toState)` pair. -/
def clauseMatches : Clause → StateVal → StateVal → Bool
  | .arrow l r, f, t => sideMatches l f && sideMatches r t
  | .bidir a b, f, t =>
    (sideMatches a f && sideMatches b t) || (sideMatches b f && sideMatches a t)

/-- Whether a rule matcher accepts a pair: a compound expression accepts
when any clause does; a predicate is invoked on the pair. -/
def matcherMatches : MatcherSpec → StateVal → StateVal → Bool
  | .expr cs, f, t => cs.any (fun c => clauseMatches c f t)
  | .pred p, f, t => p f t

/-- Whether a compiled rule accepts a `(fromState, toState)` pair. -/
def ruleMatches (r : TransitionRule) (f t : StateVal) : Bool :=
  matcherMatches r.matcher f t

/-- Modelled from the spec: `matchTransition` walks the rule set in
declaration order and returns the first rule whose matcher accepts the
pair, or `none` (the `null` of the source API) when no rule matches; the
matcher implementation is missing from the sources. -/
def AnimationTrigger.matchTransition (tr : AnimationTrigger) (f t : StateVal) :
    Option TransitionRule :=
  tr.rules.find? (fun r => ruleMatches r f t)

/-- Whether a rule's matcher is an opaque predicate function. -/
def isPredRule (r : TransitionRule) : Bool :=
  match r.matcher with
  | .pred _ => true
  | .expr _ => false

/-- The number of predicate matchers invoked while scanning the rule list
for the first match: scanning stops at the first accepting rule. -/
def predicateInvocations : List TransitionRule → StateVal → StateVal → Nat
  | [], _, _ => 0
  | r :: rest, f, t =>
    let c := if isPredRule r then 1 else 0
    if ruleMatches r f t then c else c + predicateInvocations rest f t

/-- The index of the first element accepted by `p`, if any. -/
def firstMatchIdx {α : Type} (p : α → Bool) : List α → Option Nat
  | [] => none
  | a :: as => if p a then some 0 else (firstMatchIdx p as).map (fun i => i + 1)

/-! ### Timeline building -/

/-- One output keyframe: a resolved style snapshot with its offset in
`[0,1]`. -/
structure Keyframe where
  styles : StyleMap
  offset : ℚ
deriving DecidableEq, Repr

/-- One output timeline: a duration together with its ordered keyframes. -/
structure Timeline where
  duration : Nat
  keyframes : List Keyframe
deriving DecidableEq, Repr

/-- The built transition instruction handed to the playback collaborator:
an ordered list of timelines. -/
structure AnimationTransitionInstruction where
  timelines : List Timeline
deriving DecidableEq, Repr

/-- Looks a key up in a locals map. -/
def lookupVal (m : List (String × StyleVal)) (k : String) : Option StyleVal :=
  (m.find? (fun p => p.1 == k)).map (fun p => p.2)

/-- Modelled from the spec: two-level lookup of a variable local token —
the build-time override map first when it contains the key, else the rule's
default locals map, else a hard error (the resolver is missing from the
sources). -/
def resolveToken (ov df : List (String × StyleVal)) (s : String) :
    Except String StyleVal :=
  match lookupVal ov s with
  | some w => .ok w
  | none =>
    match lookupVal df s with
    | some w => .ok w
    | none =>
      .error ("- The animation variable local \"" ++ s ++ "\" was not declared")

/-- Modelled from the spec: resolving one style value — a `$`-prefixed
token goes through `resolveToken`; any other value passes through (the
resolver is missing from the sources). -/
def resolveVal (ov df : List (String × StyleVal)) (v : StyleVal) :
    Except String StyleVal :=
  match v with
  | .str s =>
    match s.data with
    | '$' :: _ => resolveToken ov df s
    | _ => .ok v
  | .num n => .ok (.num n)

/-- Resolves every value of a style snapshot. -/
def resolveStyles (ov df : List (String × StyleVal)) :
    StyleMap → Except String StyleMap
  | [] => .ok []
  | (k, v) :: rest =>
    match resolveVal ov df v with
    | .error e => .error e
    | .ok w =>
      match resolveStyles ov df rest with
      | .error e => .error e
      | .ok ws => .ok ((k, w) :: ws)

/-- Modelled from the spec: expanding a rule's step sequence into timelines
— a `style` step sets the current style snapshot; each `animate` step emits
one timeline carrying its duration and the keyframes from the current style
(offset 0) to the step's end style (offset 1), the end style becoming the
new current style (the timeline builder is missing from the sources). -/
def buildTimelines (ov df : List (String × StyleVal)) :
    List AnimStep → StyleMap → Except String (List Timeline)
  | [], _ => .ok []
  | .style s :: rest, _ =>
    match resolveStyles ov df s with
    | .error e => .error e
    | .ok s2 => buildTimelines ov df rest s2
  | .animate d os :: rest, cur =>
    match (match os with
           | some s => resolveStyles ov df s
           | none => .ok cur) with
    | .error e => .error e
    | .ok endStyles =>
      match buildTimelines ov df rest endStyles with
      | .error e => .error e
      | .ok tls => .ok (⟨d, [⟨cur, 0⟩, ⟨endStyles, 1⟩]⟩ :: tls)

/-- Modelled from the spec: `rule.build(element, from, to, locals?)` —
resolves the step sequence against the override and default locals maps and
produces the transition instruction; the element is context only and the
state arguments carry no further effect at this layer (the builder is
missing from the sources). -/
def TransitionRule.build (r : TransitionRule) (_fromState _toState : StateVal)
    (locals : Option (List (String × StyleVal))) :
    Except String AnimationTransitionInstruction :=
  match buildTimelines (locals.getD []) r.locals r.steps [] with
  | .error e => .error e
  | .ok tls => .ok ⟨tls⟩

/-- The test suite's `buildTransition` helper: match first, then build the
matched rule. -/
def buildTransition (tr : AnimationTrigger) (f t : StateVal)
    (locals : Option (List (String × StyleVal))) :
    Option (Except String AnimationTransitionInstruction) :=
  match tr.matchTransition f t with
  | some r => some (r.build f t locals)
  | none => none

/-- The duration of the first timeline produced by matching and building at
a pair, as observed by the test suite. -/
def firstDuration (tr : AnimationTrigger) (f t : StateVal) : Option Nat :=
  match buildTransition tr f t none with
  | some (.ok instr) =>
    match instr.timelines with
    | tl :: _ => some tl.duration
    | [] => none
  | _ => none

/-- Looks a state name up in the registry (first binding wins, which is the
updated one under `setState`). -/
def lookupState (m : List (String × StyleMap)) (k : String) : Option StyleMap :=
  (m.find? (fun p => p.1 == k)).map (fun p => p.2)

/-! ### Concrete definitions exercised by the test suite -/

/-- The single-rule definition of the no-match test:
`transition('a => b', animate(1111))`. -/
def matchDemoDefs : List TriggerDef :=
  [.transition (.exprStr "a => b") [.animate 1111 none] []]

/-- The compiled form of `matchDemoDefs`. -/
def matchDemoTrigger : AnimationTrigger :=
  ⟨"name", [], [⟨.expr [.arrow (.name "a") (.name "b")], [.animate 1111 none], []⟩]⟩

/-- The first-match test definition:
`[transition('a => b', animate(1234)), transition('b => c', animate(5678))]`. -/
def firstMatchDefs : List TriggerDef :=
  [.transition (.exprStr "a => b") [.animate 1234 none] [],
   .transition (.exprStr "b => c") [.animate 5678 none] []]

/-- The compiled form of `firstMatchDefs`. -/
def firstMatchTrigger : AnimationTrigger :=
  ⟨"name", [],
   [⟨.expr [.arrow (.name "a") (.name "b")], [.animate 1234 none], []⟩,
    ⟨.expr [.arrow (.name "b") (.name "c")], [.animate 5678 none], []⟩]⟩

/-- The constantly-false transition predicate of the predicate tests. -/
def predFalse : StateVal → StateVal → Bool := fun _ _ => false

/-- The constantly-true transition predicate of the predicate tests. -/
def predTrue : StateVal → StateVal → Bool := fun _ _ => true

/-- The predicate-order test definition: predicates
`[false, false, true, true]` with durations 1111/2222/3333/3333. -/
def countDefs : List TriggerDef :=
  [.transition (.pred predFalse) [.animate 1111 none] [],
   .transition (.pred predFalse) [.animate 2222 none] [],
   .transition (.pred predTrue) [.animate 3333 none] [],
   .transition (.pred predTrue) [.animate 3333 none] []]

/-- The compiled form of `countDefs`. -/
def countTrigger : AnimationTrigger :=
  ⟨"name", [],
   [⟨.pred predFalse, [.animate 1111 none], []⟩,
    ⟨.pred predFalse, [.animate 2222 none], []⟩,
    ⟨.pred predTrue, [.animate 3333 none], []⟩,
    ⟨.pred predTrue, [.animate 3333 none], []⟩]⟩

/-- The single-predicate trigger of the non-string-state test, with the
predicate constantly false. -/
def predFalseTrigger : AnimationTrigger :=
  ⟨"name", [], [⟨.pred predFalse, [.animate 1111 none], []⟩]⟩

/-- The single-predicate trigger of the non-string-state test, with the
predicate constantly true. -/
def predTrueTrigger : AnimationTrigger :=
  ⟨"name", [], [⟨.pred predTrue, [.animate 1111 none], []⟩]⟩

/-- The wildcard test definition:
`[(*=>b, 1234), (b=>*, 5678), (*=>*, 9999)]`. -/
def wildDefs : List TriggerDef :=
  [.transition (.exprStr "* => b") [.animate 1234 none] [],
   .transition (.exprStr "b => *") [.animate 5678 none] [],
   .transition (.exprStr "* => *") [.animate 9999 none] []]

/-- The compiled form of `wildDefs`. -/
def wildTrigger : AnimationTrigger :=
  ⟨"name", [],
   [⟨.expr [.arrow .wild (.name "b")], [.animate 1234 none], []⟩,
    ⟨.expr [.arrow (.name "b") .wild], [.animate 5678 none], []⟩,
    ⟨.expr [.arrow .wild .wild], [.animate 9999 none], []⟩]⟩

/-- The bidirectional test definition: `transition('a <=> b', animate(2222))`. -/
def bidirDefs : List TriggerDef :=
  [.transition (.exprStr "a <=> b") [.animate 2222 none] []]

/-- The compiled form of `bidirDefs`. -/
def bidirTrigger : AnimationTrigger :=
  ⟨"name", [], [⟨.expr [.bidir (.name "a") (.name "b")], [.animate 2222 none], []⟩]⟩

/-- A one-rule trigger whose rule is the bidirectional clause `a <=> b` with
duration `d`. -/
def mkBidirRule (a b : String) (d : Nat) : TransitionRule :=
  ⟨.expr [.bidir (.name a) (.name b)], [.animate d none], []⟩

/-- The trigger holding exactly `mkBidirRule a b d`. -/
def mkBidirTrigger (a b : String) (d : Nat) : AnimationTrigger :=
  ⟨"name", [], [mkBidirRule a b d]⟩

/-- The compound-expression test definition:
`transition('a => b, b => a, c => *', animate(1234))`. -/
def compoundDefs : List TriggerDef :=
  [.transition (.exprStr "a => b, b => a, c => *") [.animate 1234 none] []]

/-- The compiled form of `compoundDefs`. -/
def compoundTrigger : AnimationTrigger :=
  ⟨"name", [],
   [⟨.expr [.arrow (.name "a") (.name "b"), .arrow (.name "b") (.name "a"),
            .arrow (.name "c") .wild], [.animate 1234 none], []⟩]⟩

/-- The shared-style state test definition:
`[state('on, off', style({width: 50})), transition('on => off', animate(1000)),
transition('off => on', animate(1000))]`. -/
def sharedDefs : List TriggerDef :=
  [.state "on, off" [("width", .num 50)],
   .transition (.exprStr "on => off") [.animate 1000 none] [],
   .transition (.exprStr "off => on") [.animate 1000 none] []]

/-- The compiled form of `sharedDefs`. -/
def sharedTrigger : AnimationTrigger :=
  ⟨"name",
   [("on", [("width", .num 50)]), ("off", [("width", .num 50)])],
   [⟨.expr [.arrow (.name "on") (.name "off")], [.animate 1000 none], []⟩,
    ⟨.expr [.arrow (.name "off") (.name "on")], [.animate 1000 none], []⟩]⟩

/-- The locals test definition: steps
`[style({height:'$a'}), animate(1000, style({height:'$b'}))]` with defaults
`{$a:'100px', $b:'200px'}`. -/
def localsDefs : List TriggerDef :=
  [.transition (.exprStr "a => b")
    [.style [("height", .str "$a")], .animate 1000 (some [("height", .str "$b")])]
    [("$a", .str "100px"), ("$b", .str "200px")]]

/-- The compiled form of `localsDefs`. -/
def localsTrigger : AnimationTrigger :=
  ⟨"name", [],
   [⟨.expr [.arrow (.name "a") (.name "b")],
     [.style [("height", .str "$a")], .animate 1000 (some [("height", .str "$b")])],
     [("$a", .str "100px"), ("$b", .str "200px")]⟩]⟩

/-- The `:enter` alias test definition: `transition(':enter', animate(3333))`. -/
def enterDefs : List TriggerDef :=
  [.transition (.exprStr ":enter") [.animate 3333 none] []]

/-- The compiled form of `enterDefs`: `:enter` desugared to `void => *`. -/
def enterTrigger : AnimationTrigger :=
  ⟨"name", [], [⟨.expr [.arrow (.name "void") .wild], [.animate 3333 none], []⟩]⟩

/-- The `:leave` alias test definition: `transition(':leave', animate(3333))`. -/
def leaveDefs : List TriggerDef :=
  [.transition (.exprStr ":leave") [.animate 3333 none] []]

/-- The compiled form of `leaveDefs`: `:leave` desugared to `* => void`. -/
def leaveTrigger : AnimationTrigger :=
  ⟨"name", [], [⟨.expr [.arrow .wild (.name "void")], [.animate 3333 none], []⟩]⟩

/-- The grouped-error test definition: `transition('12345', animate(3333))`
under the trigger name `myTrigger`. -/
def groupDefs : List TriggerDef :=
  [.transition (.exprStr "12345") [.animate 3333 none] []]

/-- The unsupported-expression test definition. -/
def exprBadDefs : List TriggerDef :=
  [.transition (.exprStr "somethingThatIsWrong") [.animate 3333 none] []]

/-- The unsupported-alias test definition. -/
def aliasBadDefs : List TriggerDef :=
  [.transition (.exprStr ":angular") [.animate 3333 none] []]

/-- A definition with two distinct defects, to observe that the grouped
error enumerates all of them. -/
def multiBadDefs : List TriggerDef :=
  [.transition (.exprStr "somethingThatIsWrong") [.animate 3333 none] [],
   .transition (.exprStr ":angular") [.animate 3333 none] []]

/-! ### Helper lemmas -/

/-- `find?` characterization: a found element sits at some index, satisfies
the predicate, and every earlier element fails it. -/
theorem find?_some_first {α : Type} (p : α → Bool) (l : List α) (a : α)
    (h : l.find? p = some a) :
    p a = true ∧ ∃ i : Nat, l[i]? = some a ∧
      ∀ j : Nat, j < i → ∀ b, l[j]? = some b → p b = false := by
  induction l with
  | nil => simp [List.find?] at h
  | cons x xs ih =>
    cases hx : p x with
    | true =>
      rw [List.find?, hx] at h
      have hax : a = x := by
        cases h
        rfl
      subst hax
      exact ⟨hx, 0, by simp, fun j hj => absurd hj (Nat.not_lt_zero j)⟩
    | false =>
      rw [List.find?, hx] at h
      obtain ⟨hpa, i, hi, hfirst⟩ := ih h
      refine ⟨hpa, i + 1, by simpa using hi, ?_⟩
      intro j hj b hb
      match j with
      | 0 =>
        simp at hb
        subst hb
        exact hx
      | j + 1 =>
        exact hfirst j (by omega) b (by simpa using hb)

/-- `predicateInvocations` of an all-predicate rule list equals the 1-based
index of the first matching rule, or the rule count when none match. -/
theorem predicateInvocations_firstMatchIdx (rules : List TransitionRule)
    (f t : StateVal) (h : ∀ r ∈ rules, isPredRule r = true) :
    predicateInvocations rules f t =
      (match firstMatchIdx (fun r => ruleMatches r f t) rules with
       | some i => i + 1
       | none => rules.length) := by
  induction rules with
  | nil => rfl
  | cons r rest ih =>
    have hr : isPredRule r = true := h r (List.mem_cons_self r rest)
    have ihh := ih (fun x hx => h x (List.mem_cons_of_mem r hx))
    cases hm : ruleMatches r f t with
    | true => simp [predicateInvocations, firstMatchIdx, hm, hr]
    | false =>
      cases hfi : firstMatchIdx (fun x => ruleMatches x f t) rest with
      | none =>
        rw [hfi] at ihh
        simp only [predicateInvocations, firstMatchIdx, hm, hr, hfi] at ihh ⊢
        simp only [if_true, if_false, Bool.false_eq_true, Option.map_none']
        rw [ihh]
        simp [Nat.add_comm]
      | some i =>
        rw [hfi] at ihh
        simp only [predicateInvocations, firstMatchIdx, hm, hr, hfi] at ihh ⊢
        simp only [if_true, if_false, Bool.false_eq_true, Option.map_some']
        rw [ihh]
        simp [Nat.add_comm]

/-- Looking up after `setState`: the written key maps to the new snapshot,
every other key is untouched. -/
theorem lookupState_setState (m : List (String × StyleMap)) (k k2 : String)
    (v : StyleMap) :
    lookupState (setState m k v) k2 =
      if k2 = k then some v else lookupState m k2 := by
  induction m with
  | nil =>
    by_cases hk : k2 = k
    · simp [setState, lookupState, List.find?, hk]
    · have : (k == k2) = false := by
        simp [beq_iff_eq]
        intro hkk
        exact hk hkk.symm
      simp [setState, lookupState, List.find?, this, hk]
  | cons p rest ih =>
    obtain ⟨k3, v3⟩ := p
    by_cases h3 : k3 = k
    · subst h3
      by_cases hk : k2 = k3
      · subst hk
        simp [setState, lookupState, List.find?]
      · have hne : (k3 == k2) = false := by
          simp [beq_iff_eq]
          intro hkk
          exact hk hkk.symm
        simp [setState, lookupState, List.find?, hne, hk]
    · by_cases hk : k2 = k3
      · subst hk
        simp [setState, lookupState, List.find?, h3]
      · have hne : (k3 == k2) = false := by
          simp [beq_iff_eq]
          intro hkk
          exact hk hkk.symm
        simp only [setState, if_neg h3]
        simp only [lookupState, List.find?, hne]
        exact ih

/-- Folding `setState` with one fixed snapshot preserves an existing
binding to that snapshot. -/
theorem lookupState_fold_preserve (names : List String) (st : StyleMap)
    (m : List (String × StyleMap)) (n : String)
    (h : lookupState m n = some st) :
    lookupState (names.foldl (fun acc x => setState acc x st) m) n = some st := by
  induction names generalizing m with
  | nil => simpa using h
  | cons x xs ih =>
    simp only [List.foldl]
    apply ih
    rw [lookupState_setState]
    by_cases hx : n = x
    · simp [hx]
    · simpa [hx] using h

/-- After folding `setState` over a name list with one fixed snapshot,
every listed name is bound to that snapshot. -/
theorem lookupState_fold (names : List String) (st : StyleMap)
    (m : List (String × StyleMap)) (n : String) (hn : n ∈ names) :
    lookupState (names.foldl (fun acc x => setState acc x st) m) n = some st := by
  induction names generalizing m with
  | nil => simp at hn
  | cons x xs ih =>
    simp only [List.foldl]
    rcases List.mem_cons.mp hn with hx | hx
    · subst hx
      apply lookupState_fold_preserve
      rw [lookupState_setState]
      simp
    · exact ih _ hx

/-- A sequence is an initial segment of itself followed by anything. -/
theorem leadsWith_append (n rest : List Char) : leadsWith n (n ++ rest) = true := by
  induction n with
  | nil => simp [leadsWith]
  | cons c cs ih => simp [leadsWith, ih]

/-- A leading occurrence is an occurrence. -/
theorem containsSeq_of_leadsWith (hay n : List Char)
    (h : leadsWith n hay = true) : containsSeq hay n = true := by
  cases hay with
  | nil => simpa [containsSeq] using h
  | cons c t => simp [containsSeq, h]

/-- A sequence occurs in itself followed by anything. -/
theorem containsSeq_self_append (n rest : List Char) :
    containsSeq (n ++ rest) n = true :=
  containsSeq_of_leadsWith _ _ (leadsWith_append n rest)

/-- Prepending a character preserves occurrence. -/
theorem containsSeq_cons (hay n : List Char) (c : Char)
    (h : containsSeq hay n = true) : containsSeq (c :: hay) n = true := by
  simp [containsSeq, h]

/-- Prepending any sequence preserves occurrence. -/
theorem containsSeq_append_left (a hay n : List Char)
    (h : containsSeq hay n = true) : containsSeq (a ++ hay) n = true := by
  induction a with
  | nil => simpa using h
  | cons c cs ih => exact containsSeq_cons _ _ _ ih

/-- Every collected defect occurs verbatim in the rendered defect list. -/
theorem renderErrors_contains (errs : List String) (e : String)
    (he : e ∈ errs) : containsSeq (renderErrors errs).data e.data = true := by
  induction errs with
  | nil => simp at he
  | cons e2 rest ih =>
    rcases List.mem_cons.mp he with hx | hx
    · subst hx
      show containsSeq (("\n" ++ e ++ renderErrors rest).data) e.data = true
      rw [String.data_append, String.data_append, List.append_assoc]
      apply containsSeq_append_left
      exact containsSeq_self_append _ _
    · show containsSeq (("\n" ++ e2 ++ renderErrors rest).data) e.data = true
      rw [String.data_append]
      apply containsSeq_append_left
      exact ih hx

/-- A literal side accepts exactly the equal string state. -/
theorem sideMatches_name_iff (n : String) (s : StateVal) :
    sideMatches (.name n) s = true ↔ s = .str n := by
  cases s with
  | str s2 =>
    show (n == s2) = true ↔ StateVal.str s2 = StateVal.str n
    rw [beq_iff_eq]
    constructor
    · intro hh
      subst hh
      rfl
    · intro hh
      injection hh with h3
      exact h3.symm
  | num m => simp [sideMatches]
  | bool b => simp [sideMatches]

/-! ### Claim theorems -/

/-- C1: for every trigger with at least one transition rule and every pair
`(fromState, toState)`, `matchTransition` returns the first rule in
declaration order whose matcher accepts the pair (it accepts, and every
earlier rule rejects); when no rule's matcher accepts, it returns `none`
(the model of the falsy `null`) — it is total and raises no exception. -/
theorem matchTransition_first_match (tr : AnimationTrigger) (f t : StateVal)
    (_hne : tr.rules ≠ []) :
    (∀ r, tr.matchTransition f t = some r →
       ruleMatches r f t = true ∧ ∃ i : Nat, tr.rules[i]? = some r ∧
         ∀ j : Nat, j < i → ∀ b, tr.rules[j]? = some b →
           ruleMatches b f t = false)
    ∧ (tr.matchTransition f t = none ↔
        ∀ r ∈ tr.rules, ruleMatches r f t = false) := by
  constructor
  · intro r hr
    exact find?_some_first _ _ _ hr
  · rw [AnimationTrigger.matchTransition, List.find?_eq_none]
    constructor
    · intro hh r hrr
      simpa using hh r hrr
    · intro hh r hrr
      simp [hh r hrr]

/-- Witness for `matchTransition_first_match`: the no-match test trigger
`[a => b]` queried at `(b, a)` returns `none`. -/
theorem matchTransition_first_match_witness :
    AnimationTrigger.matchTransition matchDemoTrigger (.str "b") (.str "a") = none :=
  (matchTransition_first_match matchDemoTrigger (.str "b") (.str "a")
      (by simp [matchDemoTrigger])).2.mpr (by decide)

/-- C2: for a trigger whose rules all use predicate matchers, the predicates
are invoked in declaration order stopping at the first `true`: the
invocation count equals the 1-based index of the first matching rule, or
the rule count when none matches; for predicates `[false,false,true,true]`
exactly 3 invocations occur and the third rule (duration 3333) is
returned. -/
theorem predicate_invocations_first_true :
    (∀ (rules : List TransitionRule) (f t : StateVal),
        (∀ r ∈ rules, isPredRule r = true) →
        predicateInvocations rules f t =
          (match firstMatchIdx (fun r => ruleMatches r f t) rules with
           | some i => i + 1
           | none => rules.length))
    ∧ makeTrigger "name" countDefs = .ok countTrigger
    ∧ predicateInvocations countTrigger.rules (.str "a") (.str "b") = 3
    ∧ firstMatchIdx (fun r => ruleMatches r (.str "a") (.str "b"))
        countTrigger.rules = some 2
    ∧ countTrigger.matchTransition (.str "a") (.str "b") =
        some ⟨.pred predTrue, [.animate 3333 none], []⟩
    ∧ firstDuration countTrigger (.str "a") (.str "b") = some 3333 :=
  ⟨fun rules f t h => predicateInvocations_firstMatchIdx rules f t h,
   rfl, rfl, rfl, rfl, rfl⟩

/-- Witness for `predicate_invocations_first_true`: the all-predicate test
trigger satisfies the hypothesis and the invocation-count law at a no-match
pair. -/
theorem predicate_invocations_first_true_witness :
    (∀ r ∈ countTrigger.rules, isPredRule r = true) ∧
    predicateInvocations countTrigger.rules (.str "c") (.str "d") =
      (match firstMatchIdx (fun r => ruleMatches r (.str "c") (.str "d"))
          countTrigger.rules with
       | some i => i + 1
       | none => countTrigger.rules.length) :=
  ⟨by decide,
   predicate_invocations_first_true.1 countTrigger.rules (.str "c") (.str "d")
     (by decide)⟩

/-- C3: compiling a trigger definition containing structural defects yields
a single grouped error whose message begins with the summary line naming
the trigger and contains every collected defect bullet; the unsupported
expression `somethingThatIsWrong` and the unsupported alias `:angular`
produce their specific bullet messages, and a definition with both defects
lists both in one grouped message. -/
theorem trigger_errors_grouped :
    (∀ (name : String) (defs : List TriggerDef), collectErrors defs ≠ [] →
       ∃ body, makeTrigger name defs =
           .error (("Animation parsing for the " ++ name ++
             " trigger have failed") ++ body)
         ∧ ∀ e ∈ collectErrors defs, containsSeq body.data e.data = true)
    ∧ makeTrigger "myTrigger" groupDefs = .error
        "Animation parsing for the myTrigger trigger have failed:\n- The provided transition expression \"12345\" is not supported"
    ∧ makeTrigger "name" exprBadDefs = .error
        "Animation parsing for the name trigger have failed:\n- The provided transition expression \"somethingThatIsWrong\" is not supported"
    ∧ makeTrigger "name" aliasBadDefs = .error
        "Animation parsing for the name trigger have failed:\n- The transition alias value \":angular\" is not supported"
    ∧ makeTrigger "name" multiBadDefs = .error
        "Animation parsing for the name trigger have failed:\n- The provided transition expression \"somethingThatIsWrong\" is not supported\n- The transition alias value \":angular\" is not supported" := by
  refine ⟨?_, rfl, rfl, rfl, rfl⟩
  intro name defs h
  simp only [collectErrors] at h
  refine ⟨":" ++ renderErrors (compileDefs defs).2.2, ?_, ?_⟩
  · rw [makeTrigger]
    simp only [if_neg h]
    rfl
  · intro e he
    simp only [collectErrors] at he
    rw [String.data_append]
    apply containsSeq_append_left
    exact renderErrors_contains _ _ he

/-- Witness for `trigger_errors_grouped`: the `12345` definition has a
nonempty defect list and produces the grouped error. -/
theorem trigger_errors_grouped_witness :
    collectErrors groupDefs ≠ [] ∧
    ∃ body, makeTrigger "myTrigger" groupDefs =
        .error (("Animation parsing for the " ++ "myTrigger" ++
          " trigger have failed") ++ body)
      ∧ ∀ e ∈ collectErrors groupDefs, containsSeq body.data e.data = true :=
  ⟨by decide, trigger_errors_grouped.1 "myTrigger" groupDefs (by decide)⟩

/-- C4: variable locals resolve by two-level lookup — a token is taken from
the build-time override map when that map contains its key, else from the
rule's default locals map, so an override replaces only the keys it
contains; the locals test yields keyframes 100px/200px with no override and
300px/200px with override `{$a: '300px'}`. -/
theorem locals_two_level_lookup :
    (∀ (ov df : List (String × StyleVal)) (r : List Char) (v : StyleVal),
        lookupVal ov (String.mk ('$' :: r)) = some v →
        resolveVal ov df (.str (String.mk ('$' :: r))) = .ok v)
    ∧ (∀ (ov df : List (String × StyleVal)) (r : List Char) (w : StyleVal),
        lookupVal ov (String.mk ('$' :: r)) = none →
        lookupVal df (String.mk ('$' :: r)) = some w →
        resolveVal ov df (.str (String.mk ('$' :: r))) = .ok w)
    ∧ makeTrigger "name" localsDefs = .ok localsTrigger
    ∧ buildTransition localsTrigger (.str "a") (.str "b") none =
        some (.ok ⟨[⟨1000, [⟨[("height", .str "100px")], 0⟩,
                            ⟨[("height", .str "200px")], 1⟩]⟩]⟩)
    ∧ buildTransition localsTrigger (.str "a") (.str "b")
        (some [("$a", .str "300px")]) =
        some (.ok ⟨[⟨1000, [⟨[("height", .str "300px")], 0⟩,
                            ⟨[("height", .str "200px")], 1⟩]⟩]⟩) := by
  refine ⟨?_, ?_, rfl, rfl, rfl⟩
  · intro ov df r v h
    have e1 : resolveVal ov df (.str (String.mk ('$' :: r))) =
        resolveToken ov df (String.mk ('$' :: r)) := rfl
    rw [e1, resolveToken, h]
  · intro ov df r w h1 h2
    have e1 : resolveVal ov df (.str (String.mk ('$' :: r))) =
        resolveToken ov df (String.mk ('$' :: r)) := rfl
    rw [e1, resolveToken, h1, h2]

/-- Witness for `locals_two_level_lookup`: the two lookup laws at the
locals-test maps. -/
theorem locals_two_level_lookup_witness :
    (lookupVal [("$a", StyleVal.str "300px")] (String.mk ('$' :: "a".data)) =
        some (.str "300px") ∧
      resolveVal [("$a", StyleVal.str "300px")]
        [("$a", .str "100px"), ("$b", .str "200px")]
        (.str (String.mk ('$' :: "a".data))) = .ok (.str "300px"))
    ∧ (lookupVal [("$a", StyleVal.str "300px")] (String.mk ('$' :: "b".data)) =
        none ∧
      lookupVal [("$a", .str "100px"), ("$b", .str "200px")]
        (String.mk ('$' :: "b".data)) = some (.str "200px") ∧
      resolveVal [("$a", StyleVal.str "300px")]
        [("$a", .str "100px"), ("$b", .str "200px")]
        (.str (String.mk ('$' :: "b".data))) = .ok (.str "200px")) :=
  ⟨⟨by decide,
    locals_two_level_lookup.1 [("$a", .str "300px")]
      [("$a", .str "100px"), ("$b", .str "200px")] ("a".data)
      (.str "300px") (by decide)⟩,
   ⟨by decide, by decide,
    locals_two_level_lookup.2.1 [("$a", .str "300px")]
      [("$a", .str "100px"), ("$b", .str "200px")] ("b".data)
      (.str "200px") (by decide) (by decide)⟩⟩

/-- C5: under wildcard matching a `*` side accepts any state and a non-`*`
side accepts exactly the equal string state; combined with first-match-wins
ordering, the rules `[(*=>b,1234), (b=>*,5678), (*=>*,9999)]` give duration
5678 at `(b,c)`, 1234 at `(a,b)` and 9999 at `(c,c)`. -/
theorem wildcard_first_match_wins :
    (∀ s : StateVal, sideMatches .wild s = true)
    ∧ (∀ (n : String) (s : StateVal),
        sideMatches (.name n) s = true ↔ s = .str n)
    ∧ makeTrigger "name" wildDefs = .ok wildTrigger
    ∧ firstDuration wildTrigger (.str "b") (.str "c") = some 5678
    ∧ firstDuration wildTrigger (.str "a") (.str "b") = some 1234
    ∧ firstDuration wildTrigger (.str "c") (.str "c") = some 9999 := by
  refine ⟨fun s => rfl, ?_, rfl, rfl, rfl, rfl⟩
  intro n s
  exact sideMatches_name_iff n s

/-- C6: `:enter` desugars at parse time to `void => *` and matches exactly
the pairs whose from-state is `void`; `:leave` desugars to `* => void` and
matches exactly the pairs whose to-state is `void`; any other `:xxx` alias
token is a parse error naming the unsupported alias value. -/
theorem alias_desugaring :
    parseClause (":enter".data) = .ok (.arrow (.name "void") .wild)
    ∧ parseClause (":leave".data) = .ok (.arrow .wild (.name "void"))
    ∧ (∀ f t : StateVal,
        clauseMatches (.arrow (.name "void") .wild) f t = true ↔
          f = .str "void")
    ∧ (∀ f t : StateVal,
        clauseMatches (.arrow .wild (.name "void")) f t = true ↔
          t = .str "void")
    ∧ (∀ cs : List Char, trimChars cs = cs → (∃ rest, cs = ':' :: rest) →
        cs ≠ (":enter".data) → cs ≠ (":leave".data) →
        parseClause cs = .error (unsupportedAlias cs))
    ∧ makeTrigger "name" enterDefs = .ok enterTrigger
    ∧ firstDuration enterTrigger (.str "void") (.str "something") = some 3333
    ∧ makeTrigger "name" leaveDefs = .ok leaveTrigger
    ∧ firstDuration leaveTrigger (.str "something") (.str "void") = some 3333 := by
  refine ⟨rfl, rfl, ?_, ?_, ?_, rfl, rfl, rfl, rfl⟩
  · intro f t
    simp only [clauseMatches]
    rw [show sideMatches Side.wild t = true from rfl, Bool.and_true]
    exact sideMatches_name_iff "void" f
  · intro f t
    simp only [clauseMatches]
    rw [show sideMatches Side.wild f = true from rfl, Bool.true_and]
    exact sideMatches_name_iff "void" t
  · intro cs htrim hex h1 h2
    obtain ⟨rest, hrest⟩ := hex
    subst hrest
    simp only [parseClause, htrim]
    rw [if_neg h1, if_neg h2]

/-- Witness for `alias_desugaring`: the unsupported alias `:angular` parses
to its specific error. -/
theorem alias_desugaring_witness :
    parseClause (":angular".data) = .error (unsupportedAlias (":angular".data)) :=
  alias_desugaring.2.2.2.2.1 (":angular".data) (by decide)
    ⟨"angular".data, by decide⟩ (by decide) (by decide)

/-- C7: a bidirectional rule `a <=> b` is symmetric on the selected pair:
matching `(a,b)` and `(b,a)` both select that rule and build the same
duration; concretely `a <=> b` with duration 2222 gives 2222 both ways. -/
theorem bidirectional_symmetric :
    makeTrigger "name" bidirDefs = .ok bidirTrigger
    ∧ firstDuration bidirTrigger (.str "a") (.str "b") = some 2222
    ∧ firstDuration bidirTrigger (.str "b") (.str "a") = some 2222
    ∧ (∀ (a b : String) (d : Nat), a ≠ b →
        (mkBidirTrigger a b d).matchTransition (.str a) (.str b) =
            some (mkBidirRule a b d)
        ∧ (mkBidirTrigger a b d).matchTransition (.str b) (.str a) =
            some (mkBidirRule a b d)
        ∧ firstDuration (mkBidirTrigger a b d) (.str a) (.str b) = some d
        ∧ firstDuration (mkBidirTrigger a b d) (.str b) (.str a) = some d) := by
  refine ⟨rfl, rfl, rfl, ?_⟩
  intro a b d hab
  have hm1 : ruleMatches (mkBidirRule a b d) (.str a) (.str b) = true := by
    simp [ruleMatches, mkBidirRule, matcherMatches, clauseMatches, sideMatches]
  have hm2 : ruleMatches (mkBidirRule a b d) (.str b) (.str a) = true := by
    simp [ruleMatches, mkBidirRule, matcherMatches, clauseMatches, sideMatches]
  have hmt1 : (mkBidirTrigger a b d).matchTransition (.str a) (.str b) =
      some (mkBidirRule a b d) := by
    simp [AnimationTrigger.matchTransition, mkBidirTrigger, List.find?, hm1]
  have hmt2 : (mkBidirTrigger a b d).matchTransition (.str b) (.str a) =
      some (mkBidirRule a b d) := by
    simp [AnimationTrigger.matchTransition, mkBidirTrigger, List.find?, hm2]
  refine ⟨hmt1, hmt2, ?_, ?_⟩
  · rw [firstDuration, buildTransition, hmt1]
    rfl
  · rw [firstDuration, buildTransition, hmt2]
    rfl

/-- Witness for `bidirectional_symmetric`: the symmetry laws at the
distinct states `x`, `y` with duration 7. -/
theorem bidirectional_symmetric_witness :
    (mkBidirTrigger "x" "y" 7).matchTransition (.str "x") (.str "y") =
        some (mkBidirRule "x" "y" 7)
    ∧ (mkBidirTrigger "x" "y" 7).matchTransition (.str "y") (.str "x") =
        some (mkBidirRule "x" "y" 7)
    ∧ firstDuration (mkBidirTrigger "x" "y" 7) (.str "x") (.str "y") = some 7
    ∧ firstDuration (mkBidirTrigger "x" "y" 7) (.str "y") (.str "x") = some 7 :=
  bidirectional_symmetric.2.2.2 "x" "y" 7 (by decide)

/-- C8: a comma-separated expression compiles to a compound matcher that
accepts a pair iff at least one clause accepts it; the single rule
`"a => b, b => a, c => *"` with duration 1234 matches `(a,b)`, `(b,a)` and
`(c,a)`, producing the same duration for all three. -/
theorem compound_any_clause :
    (∀ (cs : List Clause) (f t : StateVal),
        matcherMatches (.expr cs) f t = true ↔
          ∃ c ∈ cs, clauseMatches c f t = true)
    ∧ parseTransitionExpr "a => b, b => a, c => *" =
        .ok [.arrow (.name "a") (.name "b"), .arrow (.name "b") (.name "a"),
             .arrow (.name "c") .wild]
    ∧ makeTrigger "name" compoundDefs = .ok compoundTrigger
    ∧ firstDuration compoundTrigger (.str "a") (.str "b") = some 1234
    ∧ firstDuration compoundTrigger (.str "b") (.str "a") = some 1234
    ∧ firstDuration compoundTrigger (.str "c") (.str "a") = some 1234 := by
  refine ⟨?_, rfl, rfl, rfl, rfl, rfl⟩
  intro cs f t
  simp [matcherMatches, List.any_eq_true]

/-- C9: a comma-separated state name list binds every trimmed name to the
identical style snapshot: `state('on, off', style({width: 50}))` yields
registry entries for both `on` and `off` with the same snapshot, and the
compiled trigger's states mapping exposes exactly these entries. -/
theorem state_names_shared_styles :
    stateNames "on, off" = ["on", "off"]
    ∧ makeTrigger "name" sharedDefs = .ok sharedTrigger
    ∧ sharedTrigger.states =
        [("on", [("width", .num 50)]), ("off", [("width", .num 50)])]
    ∧ lookupState sharedTrigger.states "on" = some [("width", .num 50)]
    ∧ lookupState sharedTrigger.states "off" = some [("width", .num 50)]
    ∧ (∀ (csv : String) (st : StyleMap) (m : List (String × StyleMap))
         (n : String), n ∈ stateNames csv →
        lookupState (addStates m csv st) n = some st) := by
  refine ⟨by decide, rfl, rfl, rfl, rfl, ?_⟩
  intro csv st m n hn
  exact lookupState_fold (stateNames csv) st m n hn

/-- Witness for `state_names_shared_styles`: both names of `'on, off'` look
up to the shared snapshot after registration. -/
theorem state_names_shared_styles_witness :
    "on" ∈ stateNames "on, off" ∧ "off" ∈ stateNames "on, off" ∧
    lookupState (addStates [] "on, off" [("width", StyleVal.num 50)]) "on" =
        some [("width", .num 50)] ∧
    lookupState (addStates [] "on, off" [("width", StyleVal.num 50)]) "off" =
        some [("width", .num 50)] :=
  ⟨by decide, by decide,
   state_names_shared_styles.2.2.2.2.2 "on, off" [("width", .num 50)] []
     "on" (by decide),
   state_names_shared_styles.2.2.2.2.2 "on, off" [("width", .num 50)] []
     "off" (by decide)⟩

/-- C10: `matchTransition` is total over non-string state arguments when a
rule's matcher is a predicate function: for a single-predicate trigger,
number or boolean arguments raise no exception and the result is `none`
whenever the predicate returns false. -/
theorem predicate_matcher_total :
    (∀ (p : StateVal → StateVal → Bool) (steps : List AnimStep)
       (locals : List (String × StyleVal)) (f t : StateVal),
        p f t = false →
        AnimationTrigger.matchTransition
          ⟨"name", [], [⟨.pred p, steps, locals⟩]⟩ f t = none)
    ∧ predFalseTrigger.matchTransition (.str "a") (.str "b") = none
    ∧ predFalseTrigger.matchTransition (.str "1") (.num 2) = none
    ∧ predFalseTrigger.matchTransition (.bool false) (.bool true) = none
    ∧ predTrueTrigger.matchTransition (.str "a") (.str "b") =
        some ⟨.pred predTrue, [.animate 1111 none], []⟩ := by
  refine ⟨?_, rfl, rfl, rfl, rfl⟩
  intro p steps locals f t h
  simp [AnimationTrigger.matchTransition, List.find?, ruleMatches,
        matcherMatches, h]

/-- Witness for `predicate_matcher_total`: the constantly-false predicate
trigger at a number/boolean pair. -/
theorem predicate_matcher_total_witness :
    AnimationTrigger.matchTransition
      ⟨"name", [], [⟨.pred predFalse, [.animate 1111 none], []⟩]⟩
      (.num 3) (.bool true) = none :=
  predicate_matcher_total.1 predFalse [.animate 1111 none] []
    (.num 3) (.bool true) rfl

end AnimationDsl
